import Mathlib

/-!
Shallow embedding of the checkout / cart logic of the Paper-Water-Bottles
marketplace (src/src/components/CheckoutModal.tsx, CartModal.tsx,
src/src/pages/BuyerDashboard.tsx).

Remote supabase calls are modelled against an explicit store state `DB`;
an `Oracle` says which remote calls succeed.  Calls whose error the code
checks (`if (orderError) throw`, `if (itemsError) throw`) abort the run on
failure; calls whose result the code ignores (the stock update and the
cart delete) leave the store unchanged on failure but do not abort.
-/

/-- Product row (src/lib/supabase.ts `Product`), the fields checkout reads. -/
structure Product where
  id : String
  seller_id : String
  price : Int
  stock_quantity : Int
  deriving Repr, DecidableEq

/-- Cart row (`cart_items` table / `CartItem` type). -/
structure CartItem where
  id : String
  buyer_id : String
  product_id : String
  quantity : Int
  deriving Repr, DecidableEq

/-- A cart line as passed to `CheckoutModal`: `CartItem & { product: Product }`
(the cart row joined with its product snapshot). -/
structure CartLine where
  id : String
  buyer_id : String
  product_id : String
  quantity : Int
  product : Product
  deriving Repr, DecidableEq

/-- The buyer-entered checkout form (`formData` state in CheckoutModal). -/
structure FormData where
  fullName : String
  phone : String
  address : String
  city : String
  state : String
  pincode : String
  paymentMethod : String
  deriving Repr, DecidableEq

/-- The address object built from the form (used for both `shipping_address`
and `billing_address` in the order insert). -/
structure Address where
  fullName : String
  phone : String
  address : String
  city : String
  state : String
  pincode : String
  deriving Repr, DecidableEq

/-- Order row as inserted by checkout (`orders` table); `id` is the
store-generated key returned by `.select().single()`. -/
structure Order where
  id : Nat
  order_number : String
  buyer_id : String
  seller_id : String
  total_amount : Int
  status : String
  payment_status : String
  payment_method : String
  shipping_address : Address
  billing_address : Address
  deriving Repr, DecidableEq

/-- Order line item row as inserted by checkout (`order_items` table). -/
structure OrderItem where
  order_id : Nat
  product_id : String
  quantity : Int
  price_per_unit : Int
  total_price : Int
  deriving Repr, DecidableEq

/-- The remote store state the checkout flow touches.  `nextOrderId` models
the store generating a fresh key for each inserted order. -/
structure DB where
  orders : List Order
  orderItems : List OrderItem
  products : List Product
  cartItems : List CartItem
  nextOrderId : Nat
  deriving Repr, DecidableEq

/-- Which remote calls succeed: order insert and item insert per group index,
stock update per (group index, item index), and the final cart delete. -/
structure Oracle where
  orderInsertOk : Nat → Bool
  itemsInsertOk : Nat → Bool
  stockUpdateOk : Nat → Nat → Bool
  cartDeleteOk : Bool

/-- The all-successful oracle (every remote call succeeds). -/
def Oracle.allOk : Oracle :=
  { orderInsertOk := fun _ => true
    itemsInsertOk := fun _ => true
    stockUpdateOk := fun _ _ => true
    cartDeleteOk := true }

/-- The body of the `items.reduce` of CheckoutModal.tsx lines 26-33: push the
item onto its seller's list if the key exists, otherwise add the key.  A JS
object with non-index string keys iterates in insertion order, so the record
is an association list with new sellers appended at the end. -/
def groupStep (acc : List (String × List CartLine)) (item : CartLine) :
    List (String × List CartLine) :=
  let sellerId := item.product.seller_id
  if acc.any (fun kv => kv.1 == sellerId) then
    acc.map (fun kv => if kv.1 = sellerId then (kv.1, kv.2 ++ [item]) else kv)
  else
    acc ++ [(sellerId, [item])]

/-- CheckoutModal.tsx lines 26-33: `items.reduce(..., {})` grouping the cart
lines by `item.product.seller_id`. -/
def groupedBySeller (items : List CartLine) : List (String × List CartLine) :=
  items.foldl groupStep []

/-- CheckoutModal.tsx lines 43-46: `sellerItems.reduce((sum, item) =>
sum + item.product.price * item.quantity, 0)`. -/
def groupTotalAmount (sellerItems : List CartLine) : Int :=
  sellerItems.foldl (fun sum item => sum + item.product.price * item.quantity) 0

/-- The address object built from the form fields (lines 60-67 / 68-75). -/
def formAddress (fd : FormData) : Address :=
  { fullName := fd.fullName, phone := fd.phone, address := fd.address,
    city := fd.city, state := fd.state, pincode := fd.pincode }

/-- The order row inserted for one seller group (lines 50-78). -/
def mkOrder (orderId : Nat) (orderNumber buyerId : String) (fd : FormData)
    (sellerId : String) (sellerItems : List CartLine) : Order :=
  { id := orderId
    order_number := orderNumber
    buyer_id := buyerId
    seller_id := sellerId
    total_amount := groupTotalAmount sellerItems
    status := "pending"
    payment_status := if fd.paymentMethod = "cod" then "pending" else "paid"
    payment_method := fd.paymentMethod
    shipping_address := formAddress fd
    billing_address := formAddress fd }

/-- The order item rows inserted for one seller group (lines 82-88). -/
def mkOrderItems (orderId : Nat) (sellerItems : List CartLine) : List OrderItem :=
  sellerItems.map (fun item =>
    { order_id := orderId
      product_id := item.product_id
      quantity := item.quantity
      price_per_unit := item.product.price
      total_price := item.product.price * item.quantity })

/-- One stock update (lines 97-102): set `stock_quantity` of every product
row whose `id` equals `item.product_id` to
`item.product.stock_quantity - item.quantity` (snapshot minus quantity). -/
def updateStock (item : CartLine) (products : List Product) : List Product :=
  products.map (fun p =>
    if p.id = item.product_id then
      { p with stock_quantity := item.product.stock_quantity - item.quantity }
    else p)

/-- The stock-update loop of one group (lines 96-103).  The code awaits each
update but never reads its `error`, so a failed update leaves the store
unchanged and the loop continues. -/
def runStockUpdates (o : Oracle) (g : Nat) (sellerItems : List CartLine)
    (products : List Product) : List Product :=
  (sellerItems.enum).foldl
    (fun ps pair =>
      if o.stockUpdateOk g pair.1 then updateStock pair.2 ps else ps)
    products

/-- Processing of one seller group (loop body, lines 42-104).  Returns the
store after the group's calls together with `some (order, items)` when both
checked inserts succeeded, `none` when one of them threw.  A failed order
insert leaves the store unchanged; a failed item insert leaves the already
inserted order in place. -/
def processGroup (o : Oracle) (orderNumber buyerId : String) (fd : FormData)
    (g : Nat) (sellerId : String) (sellerItems : List CartLine)
    (db : DB) : DB × Option (Order × List OrderItem) :=
  if o.orderInsertOk g then
    let order := mkOrder db.nextOrderId orderNumber buyerId fd sellerId sellerItems
    let db1 : DB := { db with orders := db.orders ++ [order],
                              nextOrderId := db.nextOrderId + 1 }
    if o.itemsInsertOk g then
      let orderItems := mkOrderItems order.id sellerItems
      let db2 : DB := { db1 with orderItems := db1.orderItems ++ orderItems }
      let db3 : DB := { db2 with
        products := runStockUpdates o g sellerItems db2.products }
      (db3, some (order, orderItems))
    else (db1, none)
  else (db, none)

/-- The `for (const [sellerId, sellerItems] of Object.entries(groupedBySeller))`
loop (lines 42-104), with `g` the index of the current group.  A thrown
error aborts the remaining groups; on success the created (order, items)
pairs are collected in group order. -/
def runGroups (o : Oracle) (ons : Nat → String) (buyerId : String)
    (fd : FormData) (g : Nat) (groups : List (String × List CartLine))
    (db : DB) : DB × Option (List (Order × List OrderItem)) :=
  match groups with
  | [] => (db, some [])
  | (sellerId, sellerItems) :: rest =>
    let res := processGroup o (ons g) buyerId fd g sellerId sellerItems db
    match res.2 with
    | none => (res.1, none)
    | some pair =>
      let res2 := runGroups o ons buyerId fd (g + 1) rest res.1
      match res2.2 with
      | none => (res2.1, none)
      | some pairs => (res2.1, some (pair :: pairs))

/-- Result of a checkout run: final store, the complete (order, items) pairs
created, and whether success was signalled to the caller
(`onSuccess()` versus the catch branch's alert). -/
structure CheckoutResult where
  db : DB
  created : List (Order × List OrderItem)
  success : Bool
  deriving Repr

/-- CheckoutModal.tsx `handleSubmit` (lines 35-116): run the per-seller loop
over `groupedBySeller items`; if it completes, delete all cart rows of the
buyer (line 106, error unchecked) and signal success; if a checked insert
threw, signal failure and touch nothing further. -/
def handleSubmit (o : Oracle) (ons : Nat → String) (buyerId : String)
    (fd : FormData) (items : List CartLine) (db : DB) : CheckoutResult :=
  match runGroups o ons buyerId fd 0 (groupedBySeller items) db with
  | (db1, none) => { db := db1, created := [], success := false }
  | (db1, some pairs) =>
    let db2 : DB :=
      if o.cartDeleteOk then
        { db1 with cartItems := db1.cartItems.filter (fun c => !(c.buyer_id == buyerId)) }
      else db1
    { db := db2, created := pairs, success := true }

/-- CartModal.tsx `updateQuantity` (lines 45-59): a requested quantity below 1
returns without any store call; otherwise the cart row with the given id has
its quantity set.  The boolean records whether a store call was issued. -/
def updateQuantity (itemId : String) (newQuantity : Int)
    (cartItems : List CartItem) : List CartItem × Bool :=
  if newQuantity < 1 then (cartItems, false)
  else
    (cartItems.map (fun c =>
      if c.id = itemId then { c with quantity := newQuantity } else c), true)

/-- BuyerDashboard.tsx `handleAddToCart` (lines 359-400): look up an existing
cart row for (buyer, product) via `.maybeSingle()`; if found, update that
row's quantity to `existing.quantity + 1`; otherwise insert a fresh row with
quantity 1 (its id generated by the store, passed in as `newId`). -/
def handleAddToCart (buyerId : String) (product : Product) (newId : String)
    (cartItems : List CartItem) : List CartItem :=
  match cartItems.find? (fun c =>
      c.buyer_id == buyerId && c.product_id == product.id) with
  | some existingItem =>
    cartItems.map (fun c =>
      if c.id = existingItem.id then { c with quantity := existingItem.quantity + 1 }
      else c)
  | none =>
    cartItems ++ [{ id := newId, buyer_id := buyerId,
                    product_id := product.id, quantity := 1 }]

/-- Association-list lookup on the grouped record: the list of lines stored
under seller key `s`, `[]` when the key is absent. -/
def lookupGroup (s : String) (acc : List (String × List CartLine)) :
    List CartLine :=
  ((acc.find? (fun kv => kv.1 == s)).map Prod.snd).getD []

/-- The list of (buyer, product) key pairs of the cart rows (the pair the
`cart_items` store is expected to keep unique). -/
def cartPairs (cart : List CartItem) : List (String × String) :=
  cart.map (fun c => (c.buyer_id, c.product_id))

/-! ### Concrete sample data (used by the witnesses) -/

/-- Sample product of seller s1 (the spec §8.6 example scenario). -/
def sampleP1 : Product :=
  { id := "p1", seller_id := "s1", price := 199, stock_quantity := 10 }

/-- Sample product of seller s2 (the spec §8.6 example scenario). -/
def sampleP2 : Product :=
  { id := "p2", seller_id := "s2", price := 299, stock_quantity := 5 }

/-- Cart line: 2 units of p1. -/
def sampleL1 : CartLine :=
  { id := "c1", buyer_id := "b1", product_id := "p1", quantity := 2,
    product := sampleP1 }

/-- Cart line: 1 unit of p2. -/
def sampleL2 : CartLine :=
  { id := "c2", buyer_id := "b1", product_id := "p2", quantity := 1,
    product := sampleP2 }

/-- Sample checkout form, cash-on-delivery. -/
def sampleForm : FormData :=
  { fullName := "A", phone := "1", address := "addr", city := "c",
    state := "st", pincode := "0", paymentMethod := "cod" }

/-- Sample store state matching the two cart lines. -/
def sampleDB : DB :=
  { orders := []
    orderItems := []
    products := [sampleP1, sampleP2]
    cartItems := [{ id := "c1", buyer_id := "b1", product_id := "p1", quantity := 2 },
                  { id := "c2", buyer_id := "b1", product_id := "p2", quantity := 1 }]
    nextOrderId := 0 }

/-- Sample order-number generator. -/
def sampleOns : Nat → String := fun n => "ORD-" ++ toString n

/-- The p1 product row as stored after the sample single-line checkout. -/
def sampleP1After : Product :=
  { id := "p1", seller_id := "s1", price := 199, stock_quantity := 8 }

/-- Oracle whose stock updates all fail while every checked insert and the
cart delete succeed. -/
def stockFailOracle : Oracle :=
  { orderInsertOk := fun _ => true
    itemsInsertOk := fun _ => true
    stockUpdateOk := fun _ _ => false
    cartDeleteOk := true }

/-- Oracle failing the order insert of every group after the first. -/
def secondOrderFailOracle : Oracle :=
  { orderInsertOk := fun g => g == 0
    itemsInsertOk := fun _ => true
    stockUpdateOk := fun _ _ => true
    cartDeleteOk := true }

/-! ### Lemmas about the grouping function -/

lemma lookupGroup_eq_nil_of_any_false {s : String}
    {acc : List (String × List CartLine)}
    (h : acc.any (fun kv => kv.1 == s) = false) : lookupGroup s acc = [] := by
  have hfind : acc.find? (fun kv => kv.1 == s) = none :=
    List.find?_eq_none.mpr (fun kv hkv => List.any_eq_false.mp h kv hkv)
  simp [lookupGroup, hfind]

lemma lookupGroup_cons_pos {kv : String × List CartLine} {s : String}
    {acc : List (String × List CartLine)} (h : kv.1 = s) :
    lookupGroup s (kv :: acc) = kv.2 := by
  unfold lookupGroup
  rw [@List.find?_cons_of_pos _ (fun kv => kv.1 == s) kv acc (by simpa using h)]
  rfl

lemma lookupGroup_cons_neg {kv : String × List CartLine} {s : String}
    {acc : List (String × List CartLine)} (h : ¬ kv.1 = s) :
    lookupGroup s (kv :: acc) = lookupGroup s acc := by
  unfold lookupGroup
  rw [@List.find?_cons_of_neg _ (fun kv => kv.1 == s) kv acc (by simpa using h)]

lemma lookupGroup_map_push (s sid : String) (item : CartLine) :
    ∀ acc : List (String × List CartLine),
      lookupGroup s
          (acc.map (fun kv => if kv.1 = sid then (kv.1, kv.2 ++ [item]) else kv))
        = lookupGroup s acc
            ++ (if sid = s ∧ acc.any (fun kv => kv.1 == s) = true then [item] else [])
  | [] => by simp [lookupGroup]
  | kv :: acc => by
    have ih := lookupGroup_map_push s sid item acc
    have hfst : (if kv.1 = sid then (kv.1, kv.2 ++ [item]) else kv).1 = kv.1 := by
      by_cases h : kv.1 = sid <;> simp [h]
    rw [List.map_cons]
    by_cases hkv : kv.1 = s
    · have hx : (if kv.1 = sid then (kv.1, kv.2 ++ [item]) else kv).1 = s := by
        rw [hfst, hkv]
      rw [lookupGroup_cons_pos hx, lookupGroup_cons_pos hkv]
      have hany : ((kv :: acc).any fun kv => kv.1 == s) = true := by
        simp [List.any_cons, hkv]
      simp only [hany, and_true]
      by_cases hsid : sid = s
      · have h1 : kv.1 = sid := by rw [hkv, hsid]
        simp [h1, hsid]
      · have h1 : ¬ kv.1 = sid := by rw [hkv]; exact fun h => hsid h.symm
        simp [h1, hsid]
    · have hx : ¬ (if kv.1 = sid then (kv.1, kv.2 ++ [item]) else kv).1 = s := by
        rw [hfst]; exact hkv
      rw [lookupGroup_cons_neg hx, lookupGroup_cons_neg hkv]
      have hb : (kv.1 == s) = false := by simpa using hkv
      simp only [List.any_cons, hb, Bool.false_or]
      exact ih

lemma lookupGroup_append_single (s : String) (e : String × List CartLine) :
    ∀ acc : List (String × List CartLine),
      lookupGroup s (acc ++ [e])
        = if acc.any (fun kv => kv.1 == s) = true then lookupGroup s acc
          else if e.1 = s then e.2 else []
  | [] => by
    rw [List.nil_append]
    by_cases h : e.1 = s
    · rw [lookupGroup_cons_pos h]
      simp [lookupGroup, h]
    · rw [lookupGroup_cons_neg h]
      simp [lookupGroup, h]
  | kv :: acc => by
    have ih := lookupGroup_append_single s e acc
    rw [List.cons_append]
    by_cases hkv : kv.1 = s
    · rw [lookupGroup_cons_pos hkv, lookupGroup_cons_pos hkv]
      have hany : ((kv :: acc).any fun kv => kv.1 == s) = true := by
        simp [List.any_cons, hkv]
      simp [hany]
    · rw [lookupGroup_cons_neg hkv, lookupGroup_cons_neg hkv]
      have hb : (kv.1 == s) = false := by simpa using hkv
      simp only [List.any_cons, hb, Bool.false_or]
      exact ih

lemma groupStep_lookup (s : String) (acc : List (String × List CartLine))
    (item : CartLine) :
    lookupGroup s (groupStep acc item)
      = lookupGroup s acc ++ (if item.product.seller_id = s then [item] else []) := by
  simp only [groupStep]
  by_cases hany : acc.any (fun kv => kv.1 == item.product.seller_id) = true
  · rw [if_pos hany, lookupGroup_map_push]
    by_cases hsid : item.product.seller_id = s
    · have hany2 : acc.any (fun kv => kv.1 == s) = true := by rw [← hsid]; exact hany
      simp [hsid, hany2]
    · simp [hsid]
  · rw [if_neg hany, lookupGroup_append_single]
    have hany' : acc.any (fun kv => kv.1 == item.product.seller_id) = false :=
      Bool.eq_false_iff.mpr hany
    by_cases hsid : item.product.seller_id = s
    · have hany2 : acc.any (fun kv => kv.1 == s) = false := by rw [← hsid]; exact hany'
      rw [if_neg (by simp [hany2]), lookupGroup_eq_nil_of_any_false hany2]
      simp [hsid]
    · by_cases h2 : acc.any (fun kv => kv.1 == s) = true
      · rw [if_pos h2]; simp [hsid]
      · have h2' : acc.any (fun kv => kv.1 == s) = false := Bool.eq_false_iff.mpr h2
        rw [if_neg h2, lookupGroup_eq_nil_of_any_false h2']
        simp [hsid]

lemma groupStep_keys (acc : List (String × List CartLine)) (item : CartLine) :
    (groupStep acc item).map Prod.fst
      = if acc.any (fun kv => kv.1 == item.product.seller_id) = true
        then acc.map Prod.fst
        else acc.map Prod.fst ++ [item.product.seller_id] := by
  simp only [groupStep]
  by_cases hany : acc.any (fun kv => kv.1 == item.product.seller_id) = true
  · rw [if_pos hany, if_pos hany, List.map_map]
    have hc : (Prod.fst ∘ fun kv : String × List CartLine =>
        if kv.1 = item.product.seller_id then (kv.1, kv.2 ++ [item]) else kv)
        = Prod.fst := by
      funext kv
      by_cases h : kv.1 = item.product.seller_id <;> simp [h]
    rw [hc]
  · rw [if_neg hany, if_neg hany, List.map_append]
    rfl

lemma groupStep_keys_nodup {acc : List (String × List CartLine)} {item : CartLine}
    (h : (acc.map Prod.fst).Nodup) : ((groupStep acc item).map Prod.fst).Nodup := by
  rw [groupStep_keys]
  by_cases hany : acc.any (fun kv => kv.1 == item.product.seller_id) = true
  · rw [if_pos hany]; exact h
  · rw [if_neg hany]
    have hnotin : item.product.seller_id ∉ acc.map Prod.fst := by
      intro hmem
      rcases List.mem_map.mp hmem with ⟨kv, hkv, hfst⟩
      have hfalse := List.any_eq_false.mp (Bool.eq_false_iff.mpr hany) kv hkv
      exact hfalse (beq_iff_eq.mpr hfst)
    rw [List.nodup_append]
    exact ⟨h, List.nodup_singleton _, by simpa using hnotin⟩

lemma groupStep_keys_mem {s : String} {acc : List (String × List CartLine)}
    {item : CartLine} :
    s ∈ (groupStep acc item).map Prod.fst
      ↔ s ∈ acc.map Prod.fst ∨ s = item.product.seller_id := by
  rw [groupStep_keys]
  by_cases hany : acc.any (fun kv => kv.1 == item.product.seller_id) = true
  · rw [if_pos hany]
    constructor
    · exact Or.inl
    · rintro (h | h)
      · exact h
      · rcases List.any_eq_true.mp hany with ⟨kv, hkv, hbeq⟩
        subst h
        exact List.mem_map.mpr ⟨kv, hkv, by simpa using hbeq⟩
  · rw [if_neg hany]
    simp [List.mem_append]

lemma foldl_groupStep_lookup (s : String) :
    ∀ (l : List CartLine) (acc : List (String × List CartLine)),
      lookupGroup s (l.foldl groupStep acc)
        = lookupGroup s acc ++ l.filter (fun i => i.product.seller_id == s)
  | [], acc => by simp
  | x :: l, acc => by
    rw [List.foldl_cons, foldl_groupStep_lookup s l (groupStep acc x),
      groupStep_lookup]
    by_cases h : x.product.seller_id = s
    · have hb : (x.product.seller_id == s) = true := by simpa using h
      simp [hb, h, List.append_assoc]
    · have hb : (x.product.seller_id == s) = false := by simpa using h
      simp [hb, h]

lemma foldl_groupStep_keys_nodup :
    ∀ (l : List CartLine) (acc : List (String × List CartLine)),
      (acc.map Prod.fst).Nodup → ((l.foldl groupStep acc).map Prod.fst).Nodup
  | [], _, h => h
  | x :: l, acc, h =>
    foldl_groupStep_keys_nodup l (groupStep acc x) (groupStep_keys_nodup h)

lemma foldl_groupStep_keys_mem (s : String) :
    ∀ (l : List CartLine) (acc : List (String × List CartLine)),
      s ∈ ((l.foldl groupStep acc).map Prod.fst)
        ↔ s ∈ acc.map Prod.fst ∨ s ∈ l.map (fun i => i.product.seller_id)
  | [], acc => by simp
  | x :: l, acc => by
    rw [List.foldl_cons, foldl_groupStep_keys_mem s l (groupStep acc x),
      groupStep_keys_mem]
    simp only [List.map_cons, List.mem_cons]
    tauto

lemma lookupGroup_of_mem :
    ∀ {L : List (String × List CartLine)} {s : String} {g : List CartLine},
      (L.map Prod.fst).Nodup → (s, g) ∈ L → lookupGroup s L = g
  | [], _, _, _, hm => by cases hm
  | kv :: L, s, g, hnd, hm => by
    rcases List.mem_cons.mp hm with heq | hmem
    · rw [← heq]
      exact lookupGroup_cons_pos rfl
    · have hnd' := hnd
      rw [List.map_cons, List.nodup_cons] at hnd'
      have h1 : ¬ kv.1 = s := by
        intro h
        have hmemk : s ∈ L.map Prod.fst := List.mem_map.mpr ⟨(s, g), hmem, rfl⟩
        rw [← h] at hmemk
        exact hnd'.1 hmemk
      rw [lookupGroup_cons_neg h1]
      exact lookupGroup_of_mem hnd'.2 hmem

lemma groupedBySeller_keys_nodup (items : List CartLine) :
    ((groupedBySeller items).map Prod.fst).Nodup :=
  foldl_groupStep_keys_nodup items [] (by simp)

lemma groupedBySeller_lookup (s : String) (items : List CartLine) :
    lookupGroup s (groupedBySeller items)
      = items.filter (fun i => i.product.seller_id == s) := by
  have h := foldl_groupStep_lookup s items []
  simpa [groupedBySeller, lookupGroup] using h

lemma groupedBySeller_keys_mem (s : String) (items : List CartLine) :
    s ∈ (groupedBySeller items).map Prod.fst
      ↔ s ∈ items.map (fun i => i.product.seller_id) := by
  have h := foldl_groupStep_keys_mem s items []
  simpa [groupedBySeller] using h

lemma groupedBySeller_mem_eq_filter {items : List CartLine} {s : String}
    {g : List CartLine} (h : (s, g) ∈ groupedBySeller items) :
    g = items.filter (fun i => i.product.seller_id == s) := by
  rw [← groupedBySeller_lookup s items]
  exact (lookupGroup_of_mem (groupedBySeller_keys_nodup items) h).symm

/-! ### Lemmas about the checkout run -/

lemma processGroup_of_orderFail {o : Oracle} {orderNumber buyerId : String}
    {fd : FormData} {g : Nat} {sellerId : String} {sellerItems : List CartLine}
    {db : DB} (hO : o.orderInsertOk g = false) :
    processGroup o orderNumber buyerId fd g sellerId sellerItems db = (db, none) := by
  simp [processGroup, hO]

lemma processGroup_of_itemsFail {o : Oracle} {orderNumber buyerId : String}
    {fd : FormData} {g : Nat} {sellerId : String} {sellerItems : List CartLine}
    {db : DB} (hO : o.orderInsertOk g = true) (hI : o.itemsInsertOk g = false) :
    processGroup o orderNumber buyerId fd g sellerId sellerItems db
      = ({ db with
            orders := db.orders
              ++ [mkOrder db.nextOrderId orderNumber buyerId fd sellerId sellerItems],
            nextOrderId := db.nextOrderId + 1 }, none) := by
  simp [processGroup, hO, hI]

lemma processGroup_of_ok {o : Oracle} {orderNumber buyerId : String}
    {fd : FormData} {g : Nat} {sellerId : String} {sellerItems : List CartLine}
    {db : DB} (hO : o.orderInsertOk g = true) (hI : o.itemsInsertOk g = true) :
    processGroup o orderNumber buyerId fd g sellerId sellerItems db
      = ({ orders := db.orders
              ++ [mkOrder db.nextOrderId orderNumber buyerId fd sellerId sellerItems]
           orderItems := db.orderItems ++ mkOrderItems db.nextOrderId sellerItems
           products := runStockUpdates o g sellerItems db.products
           cartItems := db.cartItems
           nextOrderId := db.nextOrderId + 1 },
         some (mkOrder db.nextOrderId orderNumber buyerId fd sellerId sellerItems,
               mkOrderItems db.nextOrderId sellerItems)) := by
  simp [processGroup, hO, hI, mkOrder]

lemma processGroup_cartItems (o : Oracle) (orderNumber buyerId : String)
    (fd : FormData) (g : Nat) (sellerId : String) (sellerItems : List CartLine)
    (db : DB) :
    (processGroup o orderNumber buyerId fd g sellerId sellerItems db).1.cartItems
      = db.cartItems := by
  unfold processGroup
  by_cases hO : o.orderInsertOk g = true
  · by_cases hI : o.itemsInsertOk g = true
    · simp [hO, hI]
    · simp [hO, hI]
  · simp [hO]

lemma runGroups_cartItems (o : Oracle) (ons : Nat → String) (buyerId : String)
    (fd : FormData) :
    ∀ (groups : List (String × List CartLine)) (g : Nat) (db : DB),
      (runGroups o ons buyerId fd g groups db).1.cartItems = db.cartItems
  | [], _, _ => rfl
  | (sellerId, sellerItems) :: rest, g, db => by
    simp only [runGroups]
    rcases hpg : processGroup o (ons g) buyerId fd g sellerId sellerItems db with
      ⟨db1, r⟩
    have hc : db1.cartItems = db.cartItems := by
      have h := processGroup_cartItems o (ons g) buyerId fd g sellerId sellerItems db
      rw [hpg] at h
      exact h
    cases r with
    | none => exact hc
    | some pair =>
      simp only
      rcases hrec : runGroups o ons buyerId fd (g + 1) rest db1 with ⟨db2, r2⟩
      have h2 : db2.cartItems = db1.cartItems := by
        have h := runGroups_cartItems o ons buyerId fd rest (g + 1) db1
        rw [hrec] at h
        exact h
      cases r2 with
      | none => exact h2.trans hc
      | some pairs => exact h2.trans hc

lemma processGroup_snd_isSome (o : Oracle) (orderNumber buyerId : String)
    (fd : FormData) (g : Nat) (sellerId : String) (sellerItems : List CartLine)
    (db : DB) :
    (processGroup o orderNumber buyerId fd g sellerId sellerItems db).2.isSome
      = (o.orderInsertOk g && o.itemsInsertOk g) := by
  unfold processGroup
  by_cases hO : o.orderInsertOk g = true
  · by_cases hI : o.itemsInsertOk g = true
    · simp [hO, hI]
    · have hI' := Bool.eq_false_iff.mpr hI
      simp [hO, hI']
  · have hO' := Bool.eq_false_iff.mpr hO
    simp [hO']

lemma processGroup_snd_some {o : Oracle} {orderNumber buyerId : String}
    {fd : FormData} {g : Nat} {sellerId : String} {sellerItems : List CartLine}
    {db : DB} {pair : Order × List OrderItem}
    (h : (processGroup o orderNumber buyerId fd g sellerId sellerItems db).2
          = some pair) :
    pair = (mkOrder db.nextOrderId orderNumber buyerId fd sellerId sellerItems,
            mkOrderItems db.nextOrderId sellerItems) := by
  by_cases hO : o.orderInsertOk g = true
  · by_cases hI : o.itemsInsertOk g = true
    · rw [processGroup_of_ok hO hI] at h
      simpa using h.symm
    · rw [processGroup_of_itemsFail hO (Bool.eq_false_iff.mpr hI)] at h
      simp at h
  · rw [processGroup_of_orderFail (Bool.eq_false_iff.mpr hO)] at h
    simp at h

lemma runGroups_success_iff (o : Oracle) (ons : Nat → String) (buyerId : String)
    (fd : FormData) :
    ∀ (groups : List (String × List CartLine)) (g : Nat) (db : DB),
      (runGroups o ons buyerId fd g groups db).2.isSome = true
        ↔ ∀ i, i < groups.length →
            o.orderInsertOk (g + i) = true ∧ o.itemsInsertOk (g + i) = true
  | [], g, db => by simp [runGroups]
  | (sid, sitems) :: rest, g, db => by
    simp only [runGroups]
    rcases hpg : processGroup o (ons g) buyerId fd g sid sitems db with ⟨db1, r⟩
    have hsome := processGroup_snd_isSome o (ons g) buyerId fd g sid sitems db
    rw [hpg] at hsome
    cases r with
    | none =>
      simp only [Option.isSome_none]
      constructor
      · intro h; cases h
      · intro h
        have h0 := h 0 (by simp)
        rw [Nat.add_zero] at h0
        rw [h0.1, h0.2] at hsome
        simp at hsome
    | some pair =>
      simp only
      have hflags : o.orderInsertOk g = true ∧ o.itemsInsertOk g = true := by
        simp only [Option.isSome_some] at hsome
        exact ⟨(Bool.and_eq_true _ _ |>.mp hsome.symm).1,
               (Bool.and_eq_true _ _ |>.mp hsome.symm).2⟩
      rcases hrec : runGroups o ons buyerId fd (g + 1) rest db1 with ⟨db2, r2⟩
      have ih := runGroups_success_iff o ons buyerId fd rest (g + 1) db1
      rw [hrec] at ih
      cases r2 with
      | none =>
        simp only [Option.isSome_none]
        constructor
        · intro h; cases h
        · intro h
          have hnone : (Option.none : Option (List (Order × List OrderItem))).isSome
              = true := by
            apply ih.mpr
            intro i hi
            have hsucc := h (i + 1) (by simpa using Nat.succ_lt_succ hi)
            have harr : g + 1 + i = g + (i + 1) := by omega
            rw [harr]
            exact hsucc
          simp at hnone
      | some pairs =>
        simp only [Option.isSome_some, true_iff]
        intro i hi
        cases i with
        | zero => simpa using hflags
        | succ j =>
          have hj : j < rest.length := by
            simpa using Nat.lt_of_succ_lt_succ (by simpa using hi)
          have hfl := ih.mp rfl j hj
          have harr : g + 1 + j = g + (j + 1) := by omega
          rw [harr] at hfl
          exact hfl

lemma runGroups_created_shape (o : Oracle) (ons : Nat → String)
    (buyerId : String) (fd : FormData) :
    ∀ (groups : List (String × List CartLine)) (g : Nat) (db : DB)
      (pairs : List (Order × List OrderItem)),
      (runGroups o ons buyerId fd g groups db).2 = some pairs →
      ∀ pair ∈ pairs, ∃ oid onum sid sitems,
        pair = (mkOrder oid onum buyerId fd sid sitems, mkOrderItems oid sitems)
  | [], g, db, pairs, h => by
    simp only [runGroups] at h
    obtain rfl : pairs = [] := by simpa using h.symm
    intro pair hpair
    cases hpair
  | (sid, sitems) :: rest, g, db, pairs, h => by
    simp only [runGroups] at h
    rcases hpg : processGroup o (ons g) buyerId fd g sid sitems db with ⟨db1, r⟩
    rw [hpg] at h
    cases r with
    | none => simp at h
    | some pair0 =>
      simp only at h
      rcases hrec : runGroups o ons buyerId fd (g + 1) rest db1 with ⟨db2, r2⟩
      rw [hrec] at h
      cases r2 with
      | none => simp at h
      | some pairs2 =>
        simp only [Option.some_inj] at h
        subst h
        intro pair hpair
        rcases List.mem_cons.mp hpair with heq | hmem
        · subst heq
          have hshape := processGroup_snd_some (by rw [hpg])
          exact ⟨db.nextOrderId, ons g, sid, sitems, hshape⟩
        · exact runGroups_created_shape o ons buyerId fd rest (g + 1) db1 pairs2
            (by rw [hrec]) pair hmem

lemma runGroups_created_sellers (o : Oracle) (ons : Nat → String)
    (buyerId : String) (fd : FormData) :
    ∀ (groups : List (String × List CartLine)) (g : Nat) (db : DB)
      (pairs : List (Order × List OrderItem)),
      (runGroups o ons buyerId fd g groups db).2 = some pairs →
      pairs.map (fun p => p.1.seller_id) = groups.map Prod.fst
  | [], g, db, pairs, h => by
    simp only [runGroups] at h
    obtain rfl : pairs = [] := by simpa using h.symm
    rfl
  | (sid, sitems) :: rest, g, db, pairs, h => by
    simp only [runGroups] at h
    rcases hpg : processGroup o (ons g) buyerId fd g sid sitems db with ⟨db1, r⟩
    rw [hpg] at h
    cases r with
    | none => simp at h
    | some pair0 =>
      simp only at h
      rcases hrec : runGroups o ons buyerId fd (g + 1) rest db1 with ⟨db2, r2⟩
      rw [hrec] at h
      cases r2 with
      | none => simp at h
      | some pairs2 =>
        simp only [Option.some_inj] at h
        subst h
        have hshape := processGroup_snd_some (by rw [hpg])
        have hid : pair0.1.seller_id = sid := by
          rw [hshape]
          simp [mkOrder]
        rw [List.map_cons, List.map_cons, hid,
          runGroups_created_sellers o ons buyerId fd rest (g + 1) db1 pairs2
            (by rw [hrec])]

lemma foldl_add_map (f : CartLine → Int) :
    ∀ (l : List CartLine) (a : Int),
      l.foldl (fun s i => s + f i) a = a + (l.map f).sum
  | [], a => by simp
  | x :: l, a => by
    rw [List.foldl_cons, foldl_add_map f l (a + f x)]
    simp [add_assoc]

lemma groupTotalAmount_eq_sum (sitems : List CartLine) :
    groupTotalAmount sitems
      = (sitems.map (fun i => i.product.price * i.quantity)).sum := by
  unfold groupTotalAmount
  rw [foldl_add_map (fun i => i.product.price * i.quantity) sitems 0]
  simp

lemma mkOrderItems_total_prices (oid : Nat) (sitems : List CartLine) :
    (mkOrderItems oid sitems).map (fun it => it.total_price)
      = sitems.map (fun i => i.product.price * i.quantity) := by
  unfold mkOrderItems
  rw [List.map_map]
  rfl

lemma handleSubmit_created_shape {o : Oracle} {ons : Nat → String}
    {buyerId : String} {fd : FormData} {items : List CartLine} {db : DB}
    {pair : Order × List OrderItem}
    (h : pair ∈ (handleSubmit o ons buyerId fd items db).created) :
    ∃ oid onum sid sitems,
      pair = (mkOrder oid onum buyerId fd sid sitems, mkOrderItems oid sitems) := by
  unfold handleSubmit at h
  rcases hrg : runGroups o ons buyerId fd 0 (groupedBySeller items) db with ⟨db1, r⟩
  rw [hrg] at h
  cases r with
  | none => simp at h
  | some pairs =>
    simp only at h
    exact runGroups_created_shape o ons buyerId fd (groupedBySeller items) 0 db
      pairs (by rw [hrg]) pair h

lemma handleSubmit_success_iff (o : Oracle) (ons : Nat → String)
    (buyerId : String) (fd : FormData) (items : List CartLine) (db : DB) :
    (handleSubmit o ons buyerId fd items db).success = true
      ↔ (runGroups o ons buyerId fd 0 (groupedBySeller items) db).2.isSome
          = true := by
  unfold handleSubmit
  rcases hrg : runGroups o ons buyerId fd 0 (groupedBySeller items) db with ⟨db1, r⟩
  cases r with
  | none => simp
  | some pairs => simp

lemma enumFrom_foldl_updateStock :
    ∀ (l : List CartLine) (k : Nat) (g : Nat) (ps : List Product),
      (l.enumFrom k).foldl
          (fun ps pair =>
            if Oracle.allOk.stockUpdateOk g pair.1 then updateStock pair.2 ps
            else ps) ps
        = l.foldl (fun ps i => updateStock i ps) ps
  | [], _, _, _ => rfl
  | x :: l, k, g, ps => by
    rw [List.enumFrom_cons, List.foldl_cons, List.foldl_cons]
    have hc : Oracle.allOk.stockUpdateOk g k = true := rfl
    rw [if_pos hc]
    exact enumFrom_foldl_updateStock l (k + 1) g (updateStock x ps)

lemma runStockUpdates_allOk (g : Nat) (sitems : List CartLine)
    (ps : List Product) :
    runStockUpdates Oracle.allOk g sitems ps
      = sitems.foldl (fun ps i => updateStock i ps) ps :=
  enumFrom_foldl_updateStock sitems 0 g ps

lemma runGroups_allOk_isSome (ons : Nat → String) (buyerId : String)
    (fd : FormData) (groups : List (String × List CartLine)) (g : Nat)
    (db : DB) :
    (runGroups Oracle.allOk ons buyerId fd g groups db).2.isSome = true :=
  (runGroups_success_iff Oracle.allOk ons buyerId fd groups g db).mpr
    (fun _ _ => ⟨rfl, rfl⟩)

lemma runGroups_allOk_products (ons : Nat → String) (buyerId : String)
    (fd : FormData) :
    ∀ (groups : List (String × List CartLine)) (g : Nat) (db : DB),
      (runGroups Oracle.allOk ons buyerId fd g groups db).1.products
        = ((groups.map Prod.snd).flatten).foldl
            (fun ps i => updateStock i ps) db.products
  | [], g, db => by simp [runGroups]
  | (sid, sitems) :: rest, g, db => by
    simp only [runGroups]
    rw [processGroup_of_ok (show Oracle.allOk.orderInsertOk g = true from rfl)
      (show Oracle.allOk.itemsInsertOk g = true from rfl)]
    dsimp only
    rcases hrec : runGroups Oracle.allOk ons buyerId fd (g + 1) rest
        { orders := db.orders
            ++ [mkOrder db.nextOrderId (ons g) buyerId fd sid sitems]
          orderItems := db.orderItems ++ mkOrderItems db.nextOrderId sitems
          products := runStockUpdates Oracle.allOk g sitems db.products
          cartItems := db.cartItems
          nextOrderId := db.nextOrderId + 1 } with ⟨db2, r2⟩
    have ih := runGroups_allOk_products ons buyerId fd rest (g + 1)
      { orders := db.orders
          ++ [mkOrder db.nextOrderId (ons g) buyerId fd sid sitems]
        orderItems := db.orderItems ++ mkOrderItems db.nextOrderId sitems
        products := runStockUpdates Oracle.allOk g sitems db.products
        cartItems := db.cartItems
        nextOrderId := db.nextOrderId + 1 }
    rw [hrec] at ih
    have hgoal : db2.products
        = ((rest.map Prod.snd).flatten).foldl (fun ps i => updateStock i ps)
            (runStockUpdates Oracle.allOk g sitems db.products) := ih
    cases r2 with
    | none =>
      dsimp only
      rw [hgoal, runStockUpdates_allOk, List.map_cons, List.flatten_cons,
        List.foldl_append]
    | some pairs =>
      dsimp only
      rw [hgoal, runStockUpdates_allOk, List.map_cons, List.flatten_cons,
        List.foldl_append]

/-! ### Lemmas about stock updates -/

lemma updateStock_sets {l : CartLine} {pid : String} (h : l.product_id = pid)
    {ps : List Product} :
    ∀ p ∈ updateStock l ps, p.id = pid →
      p.stock_quantity = l.product.stock_quantity - l.quantity := by
  intro p hp hpid
  rcases List.mem_map.mp hp with ⟨q, hq, rfl⟩
  by_cases hqid : q.id = l.product_id
  · rw [if_pos hqid]
  · rw [if_neg hqid] at hpid
    rw [← h] at hpid
    exact absurd hpid hqid

lemma updateStock_preserves {l : CartLine} {pid : String} {v : Int}
    (h : ¬ l.product_id = pid) {ps : List Product}
    (hps : ∀ q ∈ ps, q.id = pid → q.stock_quantity = v) :
    ∀ p ∈ updateStock l ps, p.id = pid → p.stock_quantity = v := by
  intro p hp hpid
  rcases List.mem_map.mp hp with ⟨q, hq, rfl⟩
  by_cases hqid : q.id = l.product_id
  · rw [if_pos hqid] at hpid ⊢
    have : q.id = pid := hpid
    rw [hqid] at this
    exact absurd this h
  · rw [if_neg hqid] at hpid ⊢
    exact hps q hq hpid

lemma foldl_updateStock_char (pid : String) (v : Int) :
    ∀ (L : List CartLine) (ps : List Product),
      (∀ l ∈ L, l.product_id = pid → l.product.stock_quantity - l.quantity = v) →
      ((∃ l ∈ L, l.product_id = pid)
        ∨ ∀ p ∈ ps, p.id = pid → p.stock_quantity = v) →
      ∀ p ∈ L.foldl (fun ps i => updateStock i ps) ps, p.id = pid →
        p.stock_quantity = v
  | [], ps, _, hbase, p, hp, hpid => by
    rcases hbase with ⟨l, hl, _⟩ | hbase
    · cases hl
    · exact hbase p hp hpid
  | x :: L, ps, hval, hbase, p, hp, hpid => by
    rw [List.foldl_cons] at hp
    by_cases hx : x.product_id = pid
    · have hv := hval x (List.mem_cons_self x L) hx
      have hps' : ∀ q ∈ updateStock x ps, q.id = pid → q.stock_quantity = v := by
        intro q hq hqid
        rw [← hv]
        exact updateStock_sets hx q hq hqid
      exact foldl_updateStock_char pid v L (updateStock x ps)
        (fun l hl => hval l (List.mem_cons_of_mem x hl))
        (Or.inr hps') p hp hpid
    · rcases hbase with ⟨l, hl, hlpid⟩ | hbase
      · rcases List.mem_cons.mp hl with rfl | hl'
        · exact absurd hlpid hx
        · exact foldl_updateStock_char pid v L (updateStock x ps)
            (fun l hl => hval l (List.mem_cons_of_mem x hl))
            (Or.inl ⟨l, hl', hlpid⟩) p hp hpid
      · exact foldl_updateStock_char pid v L (updateStock x ps)
          (fun l hl => hval l (List.mem_cons_of_mem x hl))
          (Or.inr (updateStock_preserves hx hbase)) p hp hpid

lemma mem_flatten_groups_sub {items : List CartLine} {l : CartLine}
    (hl : l ∈ ((groupedBySeller items).map Prod.snd).flatten) : l ∈ items := by
  rcases List.mem_flatten.mp hl with ⟨lst, hlst, hmem⟩
  rcases List.mem_map.mp hlst with ⟨e, he, rfl⟩
  have hfil : e.2 = items.filter (fun i => i.product.seller_id == e.1) :=
    groupedBySeller_mem_eq_filter (by simpa using he)
  rw [hfil] at hmem
  exact (List.mem_filter.mp hmem).1

lemma mem_flatten_groups_of_mem {items : List CartLine} {item : CartLine}
    (h : item ∈ items) :
    item ∈ ((groupedBySeller items).map Prod.snd).flatten := by
  have hkey : item.product.seller_id ∈ (groupedBySeller items).map Prod.fst :=
    (groupedBySeller_keys_mem item.product.seller_id items).mpr
      (List.mem_map.mpr ⟨item, h, rfl⟩)
  rcases List.mem_map.mp hkey with ⟨e, he, hfst⟩
  have hfil : e.2 = items.filter (fun i => i.product.seller_id == e.1) :=
    groupedBySeller_mem_eq_filter (by simpa using he)
  apply List.mem_flatten.mpr
  refine ⟨e.2, List.mem_map.mpr ⟨e, he, rfl⟩, ?_⟩
  rw [hfil]
  apply List.mem_filter.mpr
  exact ⟨h, by rw [hfst]; exact beq_self_eq_true _⟩

lemma handleSubmit_allOk_success (ons : Nat → String) (buyerId : String)
    (fd : FormData) (items : List CartLine) (db : DB) :
    (handleSubmit Oracle.allOk ons buyerId fd items db).success = true :=
  (handleSubmit_success_iff Oracle.allOk ons buyerId fd items db).mpr
    (runGroups_allOk_isSome ons buyerId fd (groupedBySeller items) 0 db)

lemma handleSubmit_allOk_cartItems (ons : Nat → String) (buyerId : String)
    (fd : FormData) (items : List CartLine) (db : DB) :
    (handleSubmit Oracle.allOk ons buyerId fd items db).db.cartItems
      = db.cartItems.filter (fun c => !(c.buyer_id == buyerId)) := by
  have hsome := runGroups_allOk_isSome ons buyerId fd (groupedBySeller items) 0 db
  have hcart := runGroups_cartItems Oracle.allOk ons buyerId fd
    (groupedBySeller items) 0 db
  unfold handleSubmit
  rcases hrg : runGroups Oracle.allOk ons buyerId fd 0 (groupedBySeller items) db
    with ⟨db1, r⟩
  rw [hrg] at hsome hcart
  cases r with
  | none => simp at hsome
  | some pairs =>
    dsimp only
    rw [if_pos (show Oracle.allOk.cartDeleteOk = true from rfl)]
    dsimp only
    rw [hcart]

lemma handleSubmit_allOk_products (ons : Nat → String) (buyerId : String)
    (fd : FormData) (items : List CartLine) (db : DB) :
    (handleSubmit Oracle.allOk ons buyerId fd items db).db.products
      = (((groupedBySeller items).map Prod.snd).flatten).foldl
          (fun ps i => updateStock i ps) db.products := by
  have hsome := runGroups_allOk_isSome ons buyerId fd (groupedBySeller items) 0 db
  have hprod := runGroups_allOk_products ons buyerId fd
    (groupedBySeller items) 0 db
  unfold handleSubmit
  rcases hrg : runGroups Oracle.allOk ons buyerId fd 0 (groupedBySeller items) db
    with ⟨db1, r⟩
  rw [hrg] at hsome hprod
  cases r with
  | none => simp at hsome
  | some pairs =>
    dsimp only
    rw [if_pos (show Oracle.allOk.cartDeleteOk = true from rfl)]
    dsimp only
    rw [hprod]

lemma handleSubmit_allOk_created_sellers (ons : Nat → String) (buyerId : String)
    (fd : FormData) (items : List CartLine) (db : DB) :
    (handleSubmit Oracle.allOk ons buyerId fd items db).created.map
        (fun p => p.1.seller_id)
      = (groupedBySeller items).map Prod.fst := by
  have hsome := runGroups_allOk_isSome ons buyerId fd (groupedBySeller items) 0 db
  unfold handleSubmit
  rcases hrg : runGroups Oracle.allOk ons buyerId fd 0 (groupedBySeller items) db
    with ⟨db1, r⟩
  rw [hrg] at hsome
  cases r with
  | none => simp at hsome
  | some pairs =>
    dsimp only
    exact runGroups_created_sellers Oracle.allOk ons buyerId fd
      (groupedBySeller items) 0 db pairs (by rw [hrg])

lemma filter_buyer_of_filter_not (buyerId : String) (l : List CartItem) :
    (l.filter (fun c => !(c.buyer_id == buyerId))).filter
        (fun c => c.buyer_id == buyerId) = [] := by
  apply List.filter_eq_nil_iff.mpr
  intro c hc
  have hmem := List.mem_filter.mp hc
  intro hcb
  rw [hcb] at hmem
  simp at hmem

/-! ### Claim theorems -/

/-- C1: for every input list of cart lines, the checkout grouping produces
exactly one group per distinct sellerId present in the input (keys are
duplicate-free and are exactly the sellerIds occurring in the input), each
group is exactly the subsequence of input lines whose product.seller_id
equals that seller (the filter of the input, order preserved, nothing merged
or deduplicated), and the orchestrator creates exactly one Order per group
(on a fully successful run, the created orders correspond one-to-one, in
order, to the groups). -/
theorem grouping_creates_one_order_per_seller (ons : Nat → String)
    (buyerId : String) (fd : FormData) (items : List CartLine) (db : DB) :
    ((groupedBySeller items).map Prod.fst).Nodup
    ∧ (∀ s, s ∈ (groupedBySeller items).map Prod.fst
          ↔ s ∈ items.map (fun i => i.product.seller_id))
    ∧ (∀ s g, (s, g) ∈ groupedBySeller items
          → g = items.filter (fun i => i.product.seller_id == s))
    ∧ (handleSubmit Oracle.allOk ons buyerId fd items db).created.map
          (fun p => p.1.seller_id)
        = (groupedBySeller items).map Prod.fst :=
  ⟨groupedBySeller_keys_nodup items,
   fun s => groupedBySeller_keys_mem s items,
   fun _ _ h => groupedBySeller_mem_eq_filter h,
   handleSubmit_allOk_created_sellers ons buyerId fd items db⟩

/-- Witness for C1 at the spec §8.6 example cart: the s1 group is exactly the
filter of the input, and the successful run creates one order per seller, in
group order. -/
theorem grouping_creates_one_order_per_seller_witness :
    [sampleL1] = [sampleL1, sampleL2].filter (fun i => i.product.seller_id == "s1")
    ∧ (handleSubmit Oracle.allOk sampleOns "b1" sampleForm [sampleL1, sampleL2]
        sampleDB).created.map (fun p => p.1.seller_id) = ["s1", "s2"] := by
  have h := grouping_creates_one_order_per_seller sampleOns "b1" sampleForm
    [sampleL1, sampleL2] sampleDB
  constructor
  · exact h.2.2.1 "s1" [sampleL1] (by decide)
  · rw [h.2.2.2]
    decide

/-- C2: for every (order, items) pair fully created by a checkout run, the
order's total_amount equals the sum of the total_price values of its order
items, every order item's total_price equals price_per_unit times quantity,
and every order item carries the order's id. -/
theorem order_total_amount_invariant (o : Oracle) (ons : Nat → String)
    (buyerId : String) (fd : FormData) (items : List CartLine) (db : DB)
    (pair : Order × List OrderItem)
    (h : pair ∈ (handleSubmit o ons buyerId fd items db).created) :
    pair.1.total_amount = (pair.2.map (fun it => it.total_price)).sum
    ∧ ∀ it ∈ pair.2, it.total_price = it.price_per_unit * it.quantity
        ∧ it.order_id = pair.1.id := by
  rcases handleSubmit_created_shape h with ⟨oid, onum, sid, sitems, rfl⟩
  constructor
  · show (mkOrder oid onum buyerId fd sid sitems).total_amount = _
    have h1 : (mkOrder oid onum buyerId fd sid sitems).total_amount
        = groupTotalAmount sitems := rfl
    rw [h1, groupTotalAmount_eq_sum, ← mkOrderItems_total_prices oid]
  · intro it hit
    rcases List.mem_map.mp hit with ⟨i, _, rfl⟩
    exact ⟨rfl, rfl⟩

/-- Witness for C2: the order created for the single-line cart has
total_amount 398 = sum of its items' total prices. -/
theorem order_total_amount_invariant_witness :
    (mkOrder 0 (sampleOns 0) "b1" sampleForm "s1" [sampleL1],
      mkOrderItems 0 [sampleL1])
      ∈ (handleSubmit Oracle.allOk sampleOns "b1" sampleForm [sampleL1]
          sampleDB).created
    ∧ (mkOrder 0 (sampleOns 0) "b1" sampleForm "s1" [sampleL1]).total_amount
        = ((mkOrderItems 0 [sampleL1]).map (fun it => it.total_price)).sum := by
  have hmem : (mkOrder 0 (sampleOns 0) "b1" sampleForm "s1" [sampleL1],
      mkOrderItems 0 [sampleL1])
      ∈ (handleSubmit Oracle.allOk sampleOns "b1" sampleForm [sampleL1]
          sampleDB).created := by decide
  exact ⟨hmem,
    (order_total_amount_invariant Oracle.allOk sampleOns "b1" sampleForm
      [sampleL1] sampleDB _ hmem).1⟩

/-- C7: every Order created by checkout has status "pending", payment_status
"pending" when the payment method is cash-on-delivery ("cod") and "paid"
otherwise, records the chosen payment method, and has shipping_address and
billing_address both set to the same single buyer-entered address form. -/
theorem order_status_and_addresses (o : Oracle) (ons : Nat → String)
    (buyerId : String) (fd : FormData) (items : List CartLine) (db : DB)
    (pair : Order × List OrderItem)
    (h : pair ∈ (handleSubmit o ons buyerId fd items db).created) :
    pair.1.status = "pending"
    ∧ pair.1.payment_status
        = (if fd.paymentMethod = "cod" then "pending" else "paid")
    ∧ pair.1.payment_method = fd.paymentMethod
    ∧ pair.1.shipping_address = formAddress fd
    ∧ pair.1.billing_address = formAddress fd := by
  rcases handleSubmit_created_shape h with ⟨oid, onum, sid, sitems, rfl⟩
  exact ⟨rfl, rfl, rfl, rfl, rfl⟩

/-- Witness for C7: the order created for the sample cash-on-delivery cart
has status "pending", payment_status "pending", and equal addresses. -/
theorem order_status_and_addresses_witness :
    (mkOrder 0 (sampleOns 0) "b1" sampleForm "s1" [sampleL1],
      mkOrderItems 0 [sampleL1])
      ∈ (handleSubmit Oracle.allOk sampleOns "b1" sampleForm [sampleL1]
          sampleDB).created
    ∧ (mkOrder 0 (sampleOns 0) "b1" sampleForm "s1" [sampleL1]).status
        = "pending"
    ∧ (mkOrder 0 (sampleOns 0) "b1" sampleForm "s1" [sampleL1]).payment_status
        = "pending" := by
  have hmem : (mkOrder 0 (sampleOns 0) "b1" sampleForm "s1" [sampleL1],
      mkOrderItems 0 [sampleL1])
      ∈ (handleSubmit Oracle.allOk sampleOns "b1" sampleForm [sampleL1]
          sampleDB).created := by decide
  have hfields := order_status_and_addresses Oracle.allOk sampleOns "b1"
    sampleForm [sampleL1] sampleDB _ hmem
  exact ⟨hmem, hfields.1, by rw [hfields.2.1]; decide⟩

/-- Counterexample to C3 as stated: a run in which every checked insert
succeeds but the stock-update step fails (its error is never read by the
code), so the stock stays unchanged, yet the orchestrator still reports
success — success is NOT equivalent to every step (including stock update)
completing without error. -/
theorem success_despite_failed_stock_update :
    (handleSubmit stockFailOracle sampleOns "b1" sampleForm [sampleL1]
        sampleDB).success = true
    ∧ stockFailOracle.stockUpdateOk 0 0 = false
    ∧ (handleSubmit stockFailOracle sampleOns "b1" sampleForm [sampleL1]
        sampleDB).db.products = sampleDB.products := by
  refine ⟨?_, rfl, ?_⟩ <;> decide

/-- C3 (amended): the orchestrator reports success if and only if every
order insert and every order-item insert of every seller group completed
without error; a failure of one of those checked steps aborts the remaining
processing and is reported once as a single generic failure.  Errors of the
stock updates and of the cart delete are never read by the code and have no
effect on the reported outcome. -/
theorem success_iff_checked_inserts_ok (o : Oracle) (ons : Nat → String)
    (buyerId : String) (fd : FormData) (items : List CartLine) (db : DB) :
    (handleSubmit o ons buyerId fd items db).success = true
      ↔ ∀ g, g < (groupedBySeller items).length →
          o.orderInsertOk g = true ∧ o.itemsInsertOk g = true := by
  rw [handleSubmit_success_iff,
    runGroups_success_iff o ons buyerId fd (groupedBySeller items) 0 db]
  constructor
  · intro h i hi
    simpa using h i hi
  · intro h i hi
    simpa using h i hi

/-- Witness for the amended C3: with the stock-fail oracle all checked
inserts succeed, so the run reports success. -/
theorem success_iff_checked_inserts_ok_witness :
    (handleSubmit stockFailOracle sampleOns "b1" sampleForm
      [sampleL1, sampleL2] sampleDB).success = true :=
  (success_iff_checked_inserts_ok stockFailOracle sampleOns "b1" sampleForm
    [sampleL1, sampleL2] sampleDB).mpr (fun _ _ => ⟨rfl, rfl⟩)

/-- C4: for a checkout over two seller groups where the second group's order
insert fails, the run reports failure, the first group's Order and
OrderItems remain persisted (no compensating rollback is attempted), and the
buyer's cart retains all original lines (the cart delete is never reached). -/
theorem partial_failure_keeps_first_order_and_cart (o : Oracle)
    (ons : Nat → String) (buyerId : String) (fd : FormData)
    (items : List CartLine) (db : DB) (s1 s2 : String) (g1 g2 : List CartLine)
    (hgroups : groupedBySeller items = [(s1, g1), (s2, g2)])
    (hO0 : o.orderInsertOk 0 = true) (hI0 : o.itemsInsertOk 0 = true)
    (hO1 : o.orderInsertOk 1 = false) :
    (handleSubmit o ons buyerId fd items db).success = false
    ∧ (handleSubmit o ons buyerId fd items db).db.orders
        = db.orders ++ [mkOrder db.nextOrderId (ons 0) buyerId fd s1 g1]
    ∧ (handleSubmit o ons buyerId fd items db).db.orderItems
        = db.orderItems ++ mkOrderItems db.nextOrderId g1
    ∧ (handleSubmit o ons buyerId fd items db).db.cartItems = db.cartItems := by
  unfold handleSubmit
  rw [hgroups]
  simp only [runGroups]
  rw [processGroup_of_ok hO0 hI0]
  dsimp only
  rw [processGroup_of_orderFail (by simpa using hO1)]
  dsimp only
  exact ⟨rfl, rfl, rfl, rfl⟩

/-- Witness for C4 at the two-seller sample cart with the oracle failing the
second order insert. -/
theorem partial_failure_keeps_first_order_and_cart_witness :
    (handleSubmit secondOrderFailOracle sampleOns "b1" sampleForm
        [sampleL1, sampleL2] sampleDB).success = false
    ∧ (handleSubmit secondOrderFailOracle sampleOns "b1" sampleForm
        [sampleL1, sampleL2] sampleDB).db.orders
        = sampleDB.orders
          ++ [mkOrder sampleDB.nextOrderId (sampleOns 0) "b1" sampleForm "s1"
                [sampleL1]]
    ∧ (handleSubmit secondOrderFailOracle sampleOns "b1" sampleForm
        [sampleL1, sampleL2] sampleDB).db.orderItems
        = sampleDB.orderItems ++ mkOrderItems sampleDB.nextOrderId [sampleL1]
    ∧ (handleSubmit secondOrderFailOracle sampleOns "b1" sampleForm
        [sampleL1, sampleL2] sampleDB).db.cartItems = sampleDB.cartItems :=
  partial_failure_keeps_first_order_and_cart secondOrderFailOracle sampleOns
    "b1" sampleForm [sampleL1, sampleL2] sampleDB "s1" "s2" [sampleL1]
    [sampleL2] (by decide) rfl rfl rfl

/-- C5: after a fully successful checkout over cart lines with pairwise
distinct product ids, every product row whose id equals a cart line's
product_id holds stock_quantity equal to the snapshot stock carried in that
cart line minus the purchased quantity (the value is computed from the
client's snapshot, not re-read); the single-seller single-line case
`s − q` is the instance items = [line]. -/
theorem stock_after_checkout (ons : Nat → String) (buyerId : String)
    (fd : FormData) (items : List CartLine) (db : DB)
    (hnodup : (items.map (fun i => i.product_id)).Nodup) :
    ∀ item ∈ items,
      ∀ p ∈ (handleSubmit Oracle.allOk ons buyerId fd items db).db.products,
        p.id = item.product_id →
        p.stock_quantity = item.product.stock_quantity - item.quantity := by
  intro item hitem p hp hpid
  rw [handleSubmit_allOk_products] at hp
  refine foldl_updateStock_char item.product_id
    (item.product.stock_quantity - item.quantity) _ db.products ?_ ?_ p hp hpid
  · intro l hl hlpid
    have hlitems := mem_flatten_groups_sub hl
    have heq : l = item := List.inj_on_of_nodup_map hnodup hlitems hitem hlpid
    rw [heq]
  · exact Or.inl ⟨item, mem_flatten_groups_of_mem hitem, rfl⟩

/-- Witness for C5: checking out 2 units of p1 (snapshot stock 10) leaves
the stored p1 row with stock 8 = 10 − 2. -/
theorem stock_after_checkout_witness :
    sampleP1After
      ∈ (handleSubmit Oracle.allOk sampleOns "b1" sampleForm [sampleL1]
          sampleDB).db.products
    ∧ sampleP1After.stock_quantity
        = sampleL1.product.stock_quantity - sampleL1.quantity := by
  have hp : sampleP1After
      ∈ (handleSubmit Oracle.allOk sampleOns "b1" sampleForm [sampleL1]
          sampleDB).db.products := by decide
  exact ⟨hp, stock_after_checkout sampleOns "b1" sampleForm [sampleL1] sampleDB
    (by decide) sampleL1 (by decide) _ hp (by decide)⟩

/-- C6: a fully successful checkout reports success and ends with the buyer
holding zero cart lines: the delete removes every cart row of the buyer
(an unconditional full-cart clear over whatever rows the store holds for
that buyer), leaving exactly the other buyers' rows. -/
theorem successful_checkout_clears_cart (ons : Nat → String)
    (buyerId : String) (fd : FormData) (items : List CartLine) (db : DB) :
    (handleSubmit Oracle.allOk ons buyerId fd items db).success = true
    ∧ (handleSubmit Oracle.allOk ons buyerId fd items db).db.cartItems.filter
        (fun c => c.buyer_id == buyerId) = []
    ∧ (handleSubmit Oracle.allOk ons buyerId fd items db).db.cartItems
        = db.cartItems.filter (fun c => !(c.buyer_id == buyerId)) := by
  refine ⟨handleSubmit_allOk_success ons buyerId fd items db, ?_,
    handleSubmit_allOk_cartItems ons buyerId fd items db⟩
  rw [handleSubmit_allOk_cartItems]
  exact filter_buyer_of_filter_not buyerId db.cartItems

/-- C8: a checkout invoked with an empty list of cart lines creates no
Orders and no OrderItems, still executes the unconditional delete of all the
buyer's cart rows, and signals success to the caller. -/
theorem empty_checkout_clears_cart_and_succeeds (o : Oracle)
    (ons : Nat → String) (buyerId : String) (fd : FormData) (db : DB)
    (hdel : o.cartDeleteOk = true) :
    (handleSubmit o ons buyerId fd [] db).success = true
    ∧ (handleSubmit o ons buyerId fd [] db).created = []
    ∧ (handleSubmit o ons buyerId fd [] db).db.orders = db.orders
    ∧ (handleSubmit o ons buyerId fd [] db).db.orderItems = db.orderItems
    ∧ (handleSubmit o ons buyerId fd [] db).db.cartItems
        = db.cartItems.filter (fun c => !(c.buyer_id == buyerId)) := by
  unfold handleSubmit
  have hge : groupedBySeller ([] : List CartLine) = [] := rfl
  rw [hge]
  simp only [runGroups]
  rw [if_pos hdel]
  simp

/-- Witness for C8 on the sample store: the empty checkout succeeds, creates
nothing, and deletes b1's two cart rows. -/
theorem empty_checkout_clears_cart_and_succeeds_witness :
    (handleSubmit Oracle.allOk sampleOns "b1" sampleForm [] sampleDB).success
        = true
    ∧ (handleSubmit Oracle.allOk sampleOns "b1" sampleForm [] sampleDB).created
        = []
    ∧ (handleSubmit Oracle.allOk sampleOns "b1" sampleForm []
        sampleDB).db.orders = sampleDB.orders
    ∧ (handleSubmit Oracle.allOk sampleOns "b1" sampleForm []
        sampleDB).db.orderItems = sampleDB.orderItems
    ∧ (handleSubmit Oracle.allOk sampleOns "b1" sampleForm []
        sampleDB).db.cartItems
        = sampleDB.cartItems.filter (fun c => !(c.buyer_id == "b1")) :=
  empty_checkout_clears_cart_and_succeeds Oracle.allOk sampleOns "b1"
    sampleForm sampleDB rfl

/-- C9: the cart quantity-update handler returns without issuing any store
call (cart state unchanged, no call flag) whenever the requested quantity is
below 1, and issues an update exactly when the requested quantity is at
least 1. -/
theorem update_quantity_guard (itemId : String) (q : Int)
    (cart : List CartItem) :
    (q < 1 → updateQuantity itemId q cart = (cart, false))
    ∧ ((updateQuantity itemId q cart).2 = true ↔ 1 ≤ q) := by
  constructor
  · intro h
    unfold updateQuantity
    rw [if_pos h]
  · unfold updateQuantity
    by_cases h : q < 1
    · rw [if_pos h]
      show false = true ↔ 1 ≤ q
      constructor
      · intro hf
        cases hf
      · intro h1
        exact absurd h1 (by omega)
    · rw [if_neg h]
      show true = true ↔ 1 ≤ q
      constructor
      · intro _
        omega
      · intro _
        rfl

/-- Witness for C9: a requested quantity of 0 leaves the cart unchanged and
issues no call. -/
theorem update_quantity_guard_witness :
    updateQuantity "c1" 0
        [{ id := "c1", buyer_id := "b1", product_id := "p1", quantity := 2 }]
      = ([{ id := "c1", buyer_id := "b1", product_id := "p1", quantity := 2 }],
         false) :=
  (update_quantity_guard "c1" 0
    [{ id := "c1", buyer_id := "b1", product_id := "p1", quantity := 2 }]).1
    (by decide)

/-- C10: adding a product to the cart preserves the invariant of at most one
cart row per (buyer, product) pair: the key pairs stay duplicate-free; when
no row for (buyer, product) exists a single new row with quantity 1 is
appended; when such a row exists the store is updated in place, setting that
row's quantity to its old quantity plus 1 (no row added). -/
theorem add_to_cart_unique_pair (buyerId : String) (product : Product)
    (newId : String) (cart : List CartItem)
    (hpairs : (cartPairs cart).Nodup) :
    (cartPairs (handleAddToCart buyerId product newId cart)).Nodup
    ∧ ((∀ c ∈ cart, ¬ (c.buyer_id = buyerId ∧ c.product_id = product.id)) →
        handleAddToCart buyerId product newId cart
          = cart ++ [{ id := newId, buyer_id := buyerId,
                       product_id := product.id, quantity := 1 }])
    ∧ (∀ c ∈ cart, c.buyer_id = buyerId → c.product_id = product.id →
        handleAddToCart buyerId product newId cart
          = cart.map (fun x =>
              if x.id = c.id then { x with quantity := c.quantity + 1 }
              else x)) := by
  unfold handleAddToCart
  cases hf : cart.find?
      (fun c => c.buyer_id == buyerId && c.product_id == product.id) with
  | none =>
    have hnone := List.find?_eq_none.mp hf
    refine ⟨?_, fun _ => rfl, ?_⟩
    · unfold cartPairs
      rw [List.map_append]
      rw [List.nodup_append]
      refine ⟨hpairs, by simp, ?_⟩
      intro pr hpr hpr2
      simp only [List.map_cons, List.map_nil, List.mem_singleton] at hpr2
      subst hpr2
      rcases List.mem_map.mp hpr with ⟨c, hc, hceq⟩
      have hb : c.buyer_id = buyerId := congrArg Prod.fst hceq
      have hp : c.product_id = product.id := congrArg Prod.snd hceq
      exact hnone c hc (by simp [hb, hp])
    · intro c hc hb hp
      exact absurd (show (c.buyer_id == buyerId
          && c.product_id == product.id) = true by simp [hb, hp])
        (hnone c hc)
  | some e =>
    have hpred := List.find?_some hf
    have hmem := List.mem_of_find?_eq_some hf
    simp only [Bool.and_eq_true, beq_iff_eq] at hpred
    have hcp : cartPairs (cart.map (fun x =>
        if x.id = e.id then { x with quantity := e.quantity + 1 } else x))
        = cartPairs cart := by
      unfold cartPairs
      rw [List.map_map]
      have hcomp : ((fun c : CartItem => (c.buyer_id, c.product_id)) ∘
          fun x => if x.id = e.id then { x with quantity := e.quantity + 1 }
            else x)
          = fun c : CartItem => (c.buyer_id, c.product_id) := by
        funext x
        by_cases hx : x.id = e.id <;> simp [hx]
      rw [hcomp]
    refine ⟨by rw [hcp]; exact hpairs, ?_, ?_⟩
    · intro hforall
      exact absurd ⟨hpred.1, hpred.2⟩ (hforall e hmem)
    · intro c hc hb hp
      have heqc : e = c := by
        apply List.inj_on_of_nodup_map hpairs hmem hc
        rw [hpred.1, hpred.2, hb, hp]
      rw [heqc]

/-- Witness for C10: adding p1 to an empty cart (trivially duplicate-free)
keeps the pair invariant and inserts one row with quantity 1. -/
theorem add_to_cart_unique_pair_witness :
    (cartPairs (handleAddToCart "b1" sampleP1 "n1" [])).Nodup
    ∧ handleAddToCart "b1" sampleP1 "n1" []
        = [{ id := "n1", buyer_id := "b1", product_id := sampleP1.id,
             quantity := 1 }] := by
  have h := add_to_cart_unique_pair "b1" sampleP1 "n1" [] (by decide)
  refine ⟨h.1, ?_⟩
  rw [h.2.1 (by intro c hc; cases hc)]
  rfl
